import Mathlib

/-!
# Verification of the Autonomous Blog Generation Agent

A shallow embedding of the blog-generation workflow:

* `src/blog_agent/agents/title_agent.py` — title brainstorming and selection
* `src/blog_agent/agents/content_agent.py` — blog content generation
* `src/blog_agent/agents/translation_agent.py` — optional translation
* `src/blog_agent/graph/router.py` — branch decision (`should_translate`)
* `src/blog_agent/graph/workflow.py` — the LangGraph workflow (`create_workflow`)
* `src/blog_agent/api/routes.py` — the `/api/v1/generate` endpoint

The hosted language model is modelled as an oracle: each agent takes the
reply text of its model call(s) as an explicit argument, and the whole
workflow takes an `Oracle` record of the replies it may consume.  The
theorems then quantify over all possible model replies.

Python strings are modelled as Lean `String`s, and the Python string
operations the agents use (`str.strip`, `str.split("\n")`,
`str.split(sep, 1)[-1]`, `str.split()` with no separator,
`str.isdigit` on the first character) are implemented below as structurally
recursive functions over the underlying character list, so that all
definitions evaluate by kernel reduction.  Python's whitespace set is
modelled by `Char.isWhitespace` (space, tab, CR, LF) and `str.isdigit` by
`Char.isDigit`; the exotic Unicode whitespace/digit characters Python
additionally accepts play no role in any claim considered here.
-/

namespace BlogAgent

/-! ## Python string primitives -/

/-- Strip `Char.isWhitespace` characters from both ends of a character list:
the model of Python `str.strip()`. -/
def stripChars (l : List Char) : List Char :=
  ((l.dropWhile Char.isWhitespace).reverse.dropWhile Char.isWhitespace).reverse

/-- Model of Python `str.strip()`. -/
def pyStrip (s : String) : String := ⟨stripChars s.data⟩

/-- Split a character list at every character satisfying `p`, keeping empty
chunks (as Python `str.split(sep)` does for a one-character separator). -/
def splitBy (p : Char → Bool) : List Char → List (List Char)
  | [] => [[]]
  | x :: xs =>
    let r := splitBy p xs
    if p x then [] :: r
    else
      match r with
      | [] => [[x]]
      | h :: t => (x :: h) :: t

/-- Model of Python `s.split("\n")`. -/
def pySplitLines (s : String) : List String :=
  (splitBy (fun c => c = '\n') s.data).map (fun l => ⟨l⟩)

/-- Everything after the first occurrence of `c`, or `none` if `c` does not
occur. -/
def afterFirstChar? (c : Char) : List Char → Option (List Char)
  | [] => none
  | x :: xs => if x = c then some xs else afterFirstChar? c xs

/-- Model of Python `s.split(c, 1)[-1]` for a one-character separator `c`:
the text after the first occurrence of `c`, or all of `s` if `c` does not
occur. -/
def pyAfterFirst (c : Char) (s : String) : String :=
  ⟨(afterFirstChar? c s.data).getD s.data⟩

/-- Model of Python `s.split()` (no separator): maximal runs of
non-whitespace characters. -/
def pyWords (s : String) : List String :=
  ((splitBy Char.isWhitespace s.data).filter (fun l => l ≠ [])).map (fun l => ⟨l⟩)

/-- Model of Python `len(s.split())`, the whitespace-delimited token count
used by the Content step. -/
def pyWordCount (s : String) : Nat := (pyWords s).length

/-- Model of Python truthiness `bool(x)` for an optional string `x`
(`routes.py` uses `bool(result.get("translated_content"))`):
`None` and `""` are falsy, every other string is truthy. -/
def pyTruthyOptStr : Option String → Bool
  | none => false
  | some s => s ≠ ""

/-! ## Workflow state

The repository's `blog_agent/models/state.py` is not part of the source
tree; its field list and defaults are visible in `workflow.py` /
`routes.py` (which construct the full initial state) and in the spec's
data-model table.  Modelled from the spec: the Workflow State record with
caller inputs and empty/default placeholders for the generated fields.
The wall-clock `generation_time` field is not modelled (no claim concerns
it). -/
structure BlogState where
  topic : String := ""
  transcript : Option String := none
  target_language : Option String := none
  style : String := "professional"
  brainstormed_titles : List String := []
  selected_title : String := ""
  blog_content : String := ""
  translated_content : Option String := none
  final_content : String := ""
  word_count : Nat := 0
deriving Repr, DecidableEq

/-- A partial-state update returned by an agent: the Python agents return a
`dict` containing only the keys they set, and LangGraph merges it into the
state by field overwrite.  `none` means "key not in the dict".  The agents
only ever write the six generated fields, so only those appear here.
`translated_content := some none` models the dict entry
`"translated_content": None`. -/
structure Patch where
  brainstormed_titles : Option (List String) := none
  selected_title : Option String := none
  blog_content : Option String := none
  word_count : Option Nat := none
  translated_content : Option (Option String) := none
  final_content : Option String := none
deriving Repr, DecidableEq

/-- LangGraph's state update: every field mentioned by the patch overwrites
the corresponding state field; unmentioned fields are untouched. -/
def mergePatch (s : BlogState) (p : Patch) : BlogState :=
  { s with
    brainstormed_titles := p.brainstormed_titles.getD s.brainstormed_titles,
    selected_title := p.selected_title.getD s.selected_title,
    blog_content := p.blog_content.getD s.blog_content,
    word_count := p.word_count.getD s.word_count,
    translated_content := p.translated_content.getD s.translated_content,
    final_content := p.final_content.getD s.final_content }

/-! ## Title agent (`title_agent.py`) -/

/-- One iteration of the title-parsing loop of `title_agent.py` (lines
93–100), over character lists: strip the line; if it is non-empty and its
first character is a digit, compute
`line.split(".", 1)[-1].split(")", 1)[-1].strip()` and append it to the
accumulator if non-empty; otherwise leave the accumulator unchanged. -/
def titleLoopBody (titles : List (List Char)) (line : List Char) : List (List Char) :=
  match stripChars line with
  | [] => titles
  | c :: cs =>
    if c.isDigit then
      let l := c :: cs
      let afterDot := (afterFirstChar? '.' l).getD l
      let afterParen := (afterFirstChar? ')' afterDot).getD afterDot
      match stripChars afterParen with
      | [] => titles
      | t => titles ++ [t]
    else titles

/-- The title parser of `title_agent.py` (lines 91–100):
`raw_titles = generation_response.content.strip()`, then the loop above
over `raw_titles.split("\n")` starting from the empty list. -/
def parseTitlesList (raw : List Char) : List (List Char) :=
  (splitBy (fun c => c = '\n') (stripChars raw)).foldl titleLoopBody []

/-- The value `titleLoopBody` appends for one line, if any: a reformulation
of the loop body used to reason about the parser. -/
def lineTitle? (line : List Char) : Option (List Char) :=
  match stripChars line with
  | [] => none
  | c :: cs =>
    if c.isDigit then
      let l := c :: cs
      let afterDot := (afterFirstChar? '.' l).getD l
      let afterParen := (afterFirstChar? ')' afterDot).getD afterDot
      match stripChars afterParen with
      | [] => none
      | t => some t
    else none

/-- The title parser of `title_agent.py`, as a function on strings. -/
def parseTitles (raw : String) : List String :=
  (parseTitlesList raw.data).map (fun l => ⟨l⟩)

/-- The node function `title_agent` (title_agent.py): parses the generation reply into
candidate titles, falls back to the single synthesized title
`f"Complete Guide to {topic}"` when parsing found none, then takes the
stripped selection reply if it is one of the candidates and the first
candidate otherwise.  `genReply` and `selReply` are the texts returned by
the two model calls; prompt assembly is not modelled (it does not affect
the returned patch). -/
def title_agent (state : BlogState) (genReply selReply : String) : Patch :=
  let parsed := parseTitles genReply
  let titles := if parsed = [] then ["Complete Guide to " ++ state.topic] else parsed
  let selected0 := pyStrip selReply
  let selected_title := if selected0 ∈ titles then selected0 else titles.headD ""
  { brainstormed_titles := some titles, selected_title := some selected_title }

/-! ## Content agent (`content_agent.py`) -/

/-- The node function `content_agent` (content_agent.py): strips the model reply, computes
the word count with `len(blog_content.split())`, and returns
`blog_content`, `word_count` and `final_content` (pre-populated with the
content).  The state is read only to build the prompt, which is not
modelled. -/
def content_agent (_state : BlogState) (reply : String) : Patch :=
  let blog_content := pyStrip reply
  { blog_content := some blog_content,
    word_count := some (pyWordCount blog_content),
    final_content := some blog_content }

/-! ## Translation agent (`translation_agent.py`) -/

/-- The node function `translation_agent` (translation_agent.py).  The second component
counts the model calls the agent issues.  The guard is Python's
`target_language = state.get("target_language", ""); if not target_language:`
— it fires exactly when `target_language` is `None` or the empty string
(a non-empty string, even whitespace-only, is truthy), and then returns
`{"translated_content": None, "final_content": content}` without calling
the model.  Otherwise the agent invokes the model once and returns the
stripped reply as both `translated_content` and `final_content`. -/
def translation_agent (state : BlogState) (reply : String) : Patch × Nat :=
  let content := state.blog_content
  match state.target_language with
  | none => ({ translated_content := some none, final_content := some content }, 0)
  | some t =>
    if t = "" then
      ({ translated_content := some none, final_content := some content }, 0)
    else
      let translated := pyStrip reply
      ({ translated_content := some (some translated),
         final_content := some translated }, 1)

/-! ## Router (`router.py`) -/

/-- The routing function `should_translate` (router.py): returns `"translate"` when
`target_language` is truthy and `target_language.strip()` is truthy,
otherwise `"end"`. -/
def should_translate (state : BlogState) : String :=
  match state.target_language with
  | none => "end"
  | some t => if t ≠ "" ∧ pyStrip t ≠ "" then "translate" else "end"

/-! ## The LLM oracle -/

/-- The replies of the Language-Model Client for one workflow run, in the
order the calls are issued: the Title step's generation and selection
calls, the Content step's call, and (when reached) the Translation step's
call.  Quantifying over `Oracle` quantifies over all possible model
behaviours. -/
structure Oracle where
  titleGenReply : String
  titleSelReply : String
  contentReply : String
  translationReply : String
deriving Repr, DecidableEq

/-! ## Workflow graph (`workflow.py`)

`create_workflow` builds a `StateGraph` with three named nodes, plain
edges `START → title_agent`, `title_agent → content_agent`,
`translation_agent → END`, and one conditional edge from `content_agent`
resolved by `should_translate` through the mapping
`{"translate": "translation_agent", "end": END}`.  We embed the builder
data and a small executor with the semantics of LangGraph's `invoke` on
such a graph: starting from `START`, repeatedly pick the successor of the
current node (conditional edges take precedence, evaluating the router on
the current merged state), run the successor node, merge its patch, and
stop on `END`. -/

/-- The builder data of a `StateGraph`: named nodes, plain edges, and
conditional edges `(source, router, label → target mapping)`. -/
structure Graph where
  nodes : List (String × (Oracle → BlogState → Patch))
  edges : List (String × String)
  condEdges : List (String × (BlogState → String) × List (String × String))

/-- The graph built by `create_workflow` (workflow.py lines 115–141). -/
def create_workflow : Graph where
  nodes :=
    [("title_agent", fun o s => title_agent s o.titleGenReply o.titleSelReply),
     ("content_agent", fun o s => content_agent s o.contentReply),
     ("translation_agent", fun o s => (translation_agent s o.translationReply).1)]
  edges :=
    [("START", "title_agent"),
     ("title_agent", "content_agent"),
     ("translation_agent", "END")]
  condEdges :=
    [("content_agent", should_translate,
      [("translate", "translation_agent"), ("end", "END")])]

/-- Successor of node `n` in graph `g` at state `s`: a conditional edge
from `n`, if any, maps the router's label through its mapping; otherwise
the plain edge from `n` is followed. -/
def nextNode (g : Graph) (n : String) (s : BlogState) : Option String :=
  match g.condEdges.find? (fun ce => ce.1 = n) with
  | some (_, router, mapping) =>
    (mapping.find? (fun m => m.1 = router s)).map (fun m => m.2)
  | none => (g.edges.find? (fun e => e.1 = n)).map (fun e => e.2)

/-- Run node `n` of graph `g`: apply its agent function and merge the
returned patch (identity for unknown node names). -/
def execNode (g : Graph) (o : Oracle) (n : String) (s : BlogState) : BlogState :=
  match g.nodes.find? (fun p => p.1 = n) with
  | some (_, f) => mergePatch s (f o s)
  | none => s

/-- Fuel-bounded execution from node `n`: follow successors, executing and
merging each visited node, until `END` (or no successor, or fuel runs
out).  Returns the final state and the list of node names executed, in
order. -/
def runFrom (g : Graph) (o : Oracle) : Nat → String → BlogState → BlogState × List String
  | 0, _, s => (s, [])
  | fuel + 1, n, s =>
    match nextNode g n s with
    | none => (s, [])
    | some m =>
      if m = "END" then (s, [])
      else
        let r := runFrom g o fuel m (execNode g o m s)
        (r.1, m :: r.2)

/-- Model of `workflow.invoke(initial_state)`: run the compiled graph from `START`.
Fuel 8 is ample for the three-node acyclic graph. -/
def workflow_invoke (o : Oracle) (init : BlogState) : BlogState × List String :=
  runFrom create_workflow o 8 "START" init

/-! ## API layer (`routes.py`, `api_models.py`) -/

/-- Request model `BlogGenerationRequest` (api_models.py): the validated request body.
The length bounds on `topic`/`transcript` are enforced by the excluded
validation layer and are not needed by any claim. -/
structure BlogGenerationRequest where
  topic : String
  transcript : Option String := none
  target_language : Option String := none
  style : String := "professional"
deriving Repr, DecidableEq

/-- Response model `BlogGenerationResponse` (api_models.py), without the wall-clock
`generation_time_seconds` field (out of scope). -/
structure BlogGenerationResponse where
  title : String
  content : String
  word_count : Nat
  was_translated : Bool
  target_language : Option String
  brainstormed_titles : List String
deriving Repr, DecidableEq

/-- The initial state prepared by `generate_blog` (routes.py lines 81–96):
caller fields from the request, defaults for the rest. -/
def initialState (req : BlogGenerationRequest) : BlogState :=
  { topic := req.topic,
    transcript := req.transcript,
    target_language := req.target_language,
    style := req.style,
    brainstormed_titles := [],
    selected_title := "",
    blog_content := "",
    translated_content := none,
    final_content := "",
    word_count := 0 }

/-- The `/api/v1/generate` handler (routes.py lines 98–115) on the success
path: run the workflow on the prepared initial state and build the
response; `was_translated` is Python's `bool(result.get("translated_content"))`. -/
def generate_blog (req : BlogGenerationRequest) (o : Oracle) : BlogGenerationResponse :=
  let result := (workflow_invoke o (initialState req)).1
  { title := result.selected_title,
    content := result.final_content,
    word_count := result.word_count,
    was_translated := pyTruthyOptStr result.translated_content,
    target_language := req.target_language,
    brainstormed_titles := result.brainstormed_titles }

/-! ## Step-by-step view of a run

Named intermediate states of one run, used to state the graph-execution
theorems: the state after merging the Title step's patch, after merging the
Content step's patch, and after merging the Translation step's patch. -/

/-- State after the Title step's patch has been merged. -/
def titleState (o : Oracle) (init : BlogState) : BlogState :=
  mergePatch init (title_agent init o.titleGenReply o.titleSelReply)

/-- State after the Content step's patch has been merged. -/
def contentState (o : Oracle) (init : BlogState) : BlogState :=
  mergePatch (titleState o init) (content_agent (titleState o init) o.contentReply)

/-- State after the Translation step's patch has been merged (the
Translation step is evaluated on the post-Content state). -/
def translatedState (o : Oracle) (init : BlogState) : BlogState :=
  mergePatch (contentState o init)
    ((translation_agent (contentState o init) o.translationReply).1)

/-! ## Execution lemmas -/

theorem should_translate_total (s : BlogState) :
    should_translate s = "translate" ∨ should_translate s = "end" := by
  unfold should_translate
  cases s.target_language
  · exact Or.inr rfl
  · dsimp only
    split
    · exact Or.inl rfl
    · exact Or.inr rfl

theorem runFrom_succ (g : Graph) (o : Oracle) (fuel : Nat) (n : String) (s : BlogState) :
    runFrom g o (fuel + 1) n s =
      match nextNode g n s with
      | none => (s, [])
      | some m =>
        if m = "END" then (s, [])
        else
          let r := runFrom g o fuel m (execNode g o m s)
          (r.1, m :: r.2) := rfl

theorem nextNode_content (s : BlogState) :
    nextNode create_workflow "content_agent" s =
      (([("translate", "translation_agent"), ("end", "END")].find?
          (fun m => m.1 = should_translate s)).map (fun m => m.2)) := rfl

theorem nextNode_content_translate (s : BlogState)
    (h : should_translate s = "translate") :
    nextNode create_workflow "content_agent" s = some "translation_agent" := by
  simp only [nextNode_content, h]
  rfl

theorem nextNode_content_end (s : BlogState) (h : should_translate s = "end") :
    nextNode create_workflow "content_agent" s = some "END" := by
  simp only [nextNode_content, h]
  rfl

/-- Closed form of one graph execution: the Title and Content steps run in
order, then — depending on the Branch Decision evaluated on the
post-Content state — the Translation step runs (or not), and execution
reaches `END`. -/
theorem workflow_invoke_eq (o : Oracle) (init : BlogState) :
    workflow_invoke o init =
      if should_translate (contentState o init) = "translate" then
        (translatedState o init, ["title_agent", "content_agent", "translation_agent"])
      else
        (contentState o init, ["title_agent", "content_agent"]) := by
  have h8 : workflow_invoke o init =
      (let r := runFrom create_workflow o 6 "content_agent" (contentState o init)
       (r.1, "title_agent" :: "content_agent" :: r.2)) := rfl
  rw [h8, runFrom_succ]
  by_cases h : should_translate (contentState o init) = "translate"
  · rw [nextNode_content_translate _ h, if_pos h]
    rfl
  · rcases should_translate_total (contentState o init) with h' | h'
    · exact absurd h' h
    · rw [nextNode_content_end _ h', if_neg h]
      rfl


theorem pyStrip_empty : pyStrip "" = "" := rfl

theorem should_translate_translate_iff (s : BlogState) :
    should_translate s = "translate" ↔
      ∃ t, s.target_language = some t ∧ pyStrip t ≠ "" := by
  unfold should_translate
  cases ht : s.target_language with
  | none => simp
  | some t =>
    dsimp only
    split
    · rename_i hc
      exact ⟨fun _ => ⟨t, rfl, hc.2⟩, fun _ => rfl⟩
    · rename_i hc
      push_neg at hc
      constructor
      · intro h
        exact absurd h (by decide)
      · rintro ⟨t', ht', hstrip⟩
        injection ht' with h'
        subst h'
        by_cases he : t = ""
        · subst he
          exact absurd pyStrip_empty hstrip
        · exact absurd (hc he) hstrip

theorem titleLoopBody_eq (titles : List (List Char)) (line : List Char) :
    titleLoopBody titles line = titles ++ (lineTitle? line).toList := by
  unfold titleLoopBody lineTitle?
  cases h : stripChars line with
  | nil => simp
  | cons c cs =>
    dsimp only
    split
    · cases h2 : stripChars ((afterFirstChar? ')' ((afterFirstChar? '.' (c :: cs)).getD (c :: cs))).getD ((afterFirstChar? '.' (c :: cs)).getD (c :: cs))) with
      | nil => simp
      | cons x xs => simp
    · simp

theorem foldl_titleLoopBody (lines : List (List Char)) (acc : List (List Char)) :
    lines.foldl titleLoopBody acc = acc ++ lines.filterMap lineTitle? := by
  induction lines generalizing acc with
  | nil => simp
  | cons l ls ih =>
    rw [List.foldl_cons, titleLoopBody_eq, ih, List.filterMap_cons]
    cases lineTitle? l <;> simp

theorem parseTitlesList_eq (raw : List Char) :
    parseTitlesList raw =
      (splitBy (fun c => c = '\n') (stripChars raw)).filterMap lineTitle? := by
  rw [parseTitlesList, foldl_titleLoopBody, List.nil_append]

theorem lineTitle?_ne_nil {line t : List Char} (h : lineTitle? line = some t) :
    t ≠ [] := by
  unfold lineTitle? at h
  revert h
  cases stripChars line with
  | nil => intro h; exact absurd h (by simp)
  | cons c cs =>
    dsimp only
    split
    · cases stripChars ((afterFirstChar? ')' ((afterFirstChar? '.' (c :: cs)).getD (c :: cs))).getD ((afterFirstChar? '.' (c :: cs)).getD (c :: cs))) with
      | nil => intro h; exact absurd h (by simp)
      | cons x xs =>
        intro h
        injection h with h'
        subst h'
        simp
    · intro h; exact absurd h (by simp)


/-- The candidate list after the parsing fallback. -/
def titleCandidates (s : BlogState) (genReply : String) : List String :=
  if parseTitles genReply = [] then ["Complete Guide to " ++ s.topic] else parseTitles genReply

/-- The selection-with-fallback rule. -/
def selectTitle (titles : List String) (selReply : String) : String :=
  if pyStrip selReply ∈ titles then pyStrip selReply else titles.headD ""

theorem title_agent_eq (s : BlogState) (genReply selReply : String) :
    title_agent s genReply selReply =
      { brainstormed_titles := some (titleCandidates s genReply),
        selected_title := some (selectTitle (titleCandidates s genReply) selReply) } := rfl

theorem titleCandidates_ne_nil (s : BlogState) (genReply : String) :
    titleCandidates s genReply ≠ [] := by
  unfold titleCandidates
  split
  · simp
  · assumption

theorem headD_mem {α : Type} {l : List α} (d : α) (h : l ≠ []) : l.headD d ∈ l := by
  cases l with
  | nil => exact absurd rfl h
  | cons x xs => simp [List.headD]

theorem selectTitle_mem (titles : List String) (selReply : String) (h : titles ≠ []) :
    selectTitle titles selReply ∈ titles := by
  unfold selectTitle
  split
  · assumption
  · exact headD_mem "" h

theorem mk_eq_empty_iff (l : List Char) : (⟨l⟩ : String) = "" ↔ l = [] := by
  constructor
  · intro h
    have := congrArg String.data h
    simpa using this
  · rintro rfl
    rfl

theorem parseTitles_mem_ne_empty {raw t : String} (h : t ∈ parseTitles raw) : t ≠ "" := by
  unfold parseTitles at h
  rw [List.mem_map] at h
  obtain ⟨l, hl, rfl⟩ := h
  rw [parseTitlesList_eq, List.mem_filterMap] at hl
  obtain ⟨line, _, hline⟩ := hl
  have hne := lineTitle?_ne_nil hline
  rw [Ne, mk_eq_empty_iff]
  exact hne

theorem fallback_title_ne_empty (s : BlogState) : ("Complete Guide to " ++ s.topic) ≠ "" := by
  intro h
  have hlen : ("Complete Guide to " : String).length + s.topic.length = ("" : String).length :=
    by rw [← String.length_append, h]
  rw [show ("Complete Guide to " : String).length = 18 from rfl,
    show ("" : String).length = 0 from rfl] at hlen
  omega

theorem titleCandidates_mem_ne_empty {s : BlogState} {genReply t : String}
    (h : t ∈ titleCandidates s genReply) : t ≠ "" := by
  unfold titleCandidates at h
  rcases (Classical.em (parseTitles genReply = [])) with he | he
  · rw [if_pos he] at h
    rw [List.mem_singleton] at h
    subst h
    exact fallback_title_ne_empty s
  · rw [if_neg he] at h
    exact parseTitles_mem_ne_empty h


theorem titleState_eq (o : Oracle) (init : BlogState) :
    titleState o init =
      { init with
        brainstormed_titles := titleCandidates init o.titleGenReply,
        selected_title :=
          selectTitle (titleCandidates init o.titleGenReply) o.titleSelReply } := rfl

theorem contentState_eq (o : Oracle) (init : BlogState) :
    contentState o init =
      { titleState o init with
        blog_content := pyStrip o.contentReply,
        word_count := pyWordCount (pyStrip o.contentReply),
        final_content := pyStrip o.contentReply } := rfl

theorem contentState_target_language (o : Oracle) (init : BlogState) :
    (contentState o init).target_language = init.target_language := rfl

theorem translatedState_eq (o : Oracle) (init : BlogState)
    (h : should_translate (contentState o init) = "translate") :
    translatedState o init =
      { contentState o init with
        translated_content := some (pyStrip o.translationReply),
        final_content := pyStrip o.translationReply } := by
  obtain ⟨t, ht, hs⟩ := (should_translate_translate_iff (contentState o init)).1 h
  have htne : t ≠ "" := by
    intro he
    subst he
    exact hs pyStrip_empty
  unfold translatedState translation_agent
  rw [ht]
  dsimp only
  rw [if_neg htne]
  rfl


/-! ## Further run lemmas -/

theorem contentState_translated_content (o : Oracle) (init : BlogState) :
    (contentState o init).translated_content = init.translated_content := rfl

theorem contentState_final_eq_blog (o : Oracle) (init : BlogState) :
    (contentState o init).final_content = (contentState o init).blog_content := rfl

theorem result_selected_title (o : Oracle) (init : BlogState) :
    (workflow_invoke o init).1.selected_title =
      selectTitle (titleCandidates init o.titleGenReply) o.titleSelReply := by
  rw [workflow_invoke_eq]
  by_cases h : should_translate (contentState o init) = "translate"
  · rw [if_pos h, translatedState_eq o init h]
    rfl
  · rw [if_neg h]
    rfl


/-! ## The claims -/

/-- Claim C1: for every complete run of the Execution Graph (all model
replies, all initial states), `final_content` is set by the terminal
point regardless of branch: it equals `blog_content` unless the
Translation step ran, in which case it equals `translated_content`
(both being the stripped translation reply). -/
theorem final_content_always_set (o : Oracle) (init : BlogState) :
    (workflow_invoke o init).1.final_content =
      (if (workflow_invoke o init).2.contains "translation_agent" then
        pyStrip o.translationReply
      else (workflow_invoke o init).1.blog_content)
    ∧ (workflow_invoke o init).1.translated_content =
      (if (workflow_invoke o init).2.contains "translation_agent" then
        some (pyStrip o.translationReply)
      else init.translated_content) := by
  rw [workflow_invoke_eq o init]
  by_cases h : should_translate (contentState o init) = "translate"
  · rw [if_pos h, translatedState_eq o init h]
    refine ⟨?_, ?_⟩ <;> simp
  · rw [if_neg h]
    refine ⟨?_, ?_⟩ <;> simp [contentState_translated_content, contentState_final_eq_blog]

/-- Claim C2: the run operation applies the Title step once, then the
Content step once, then evaluates the Branch Decision on the post-Content
state, then applies the Translation step exactly when the decision is
`"translate"`, and returns the merged state; the trace shows each executed
node exactly once, in order, with no retries. -/
theorem run_applies_steps_in_order (o : Oracle) (init : BlogState) :
    workflow_invoke o init =
      (if should_translate (contentState o init) = "translate" then
        (translatedState o init,
          ["title_agent", "content_agent", "translation_agent"])
      else
        (contentState o init, ["title_agent", "content_agent"])) :=
  workflow_invoke_eq o init

/-- Claim C3: `should_translate` is pure and returns `"translate"` iff
`target_language` is present and non-empty after stripping; otherwise it
returns the skip label, which in the code is the string `"end"`; in
particular `"Spanish"` routes to translate while `none` and `"   "`
route to the skip label. -/
theorem should_translate_route (s : BlogState) :
    (should_translate s = "translate" ↔
      ∃ t, s.target_language = some t ∧ pyStrip t ≠ "")
    ∧ (should_translate s = "translate" ∨ should_translate s = "end")
    ∧ should_translate { s with target_language := some "Spanish" } = "translate"
    ∧ should_translate { s with target_language := none } = "end"
    ∧ should_translate { s with target_language := some "   " } = "end" := by
  exact ⟨should_translate_translate_iff s, should_translate_total s, rfl, rfl, rfl⟩

/-- Claim C5: after the Title step, `selected_title` is an element of
`brainstormed_titles`; it is the stripped selection reply when that
exactly matches a candidate, and the first candidate otherwise. -/
theorem selected_title_is_candidate (s : BlogState) (genReply selReply : String) :
    ∃ titles selected,
      (title_agent s genReply selReply).brainstormed_titles = some titles
      ∧ (title_agent s genReply selReply).selected_title = some selected
      ∧ titles ≠ []
      ∧ selected ∈ titles
      ∧ selected =
          (if pyStrip selReply ∈ titles then pyStrip selReply else titles.headD "") := by
  refine ⟨titleCandidates s genReply,
    selectTitle (titleCandidates s genReply) selReply, rfl, rfl,
    titleCandidates_ne_nil s genReply,
    selectTitle_mem _ _ (titleCandidates_ne_nil s genReply), rfl⟩

/-- Claim C7: when parsing extracts zero candidates, `brainstormed_titles`
is exactly the one-element list `"Complete Guide to {topic}"` and
`selected_title` equals that synthesized title. -/
theorem fallback_title_when_no_candidates (s : BlogState)
    (genReply selReply : String) (h : parseTitles genReply = []) :
    (title_agent s genReply selReply).brainstormed_titles =
      some ["Complete Guide to " ++ s.topic]
    ∧ (title_agent s genReply selReply).selected_title =
      some ("Complete Guide to " ++ s.topic) := by
  rw [title_agent_eq]
  have hc : titleCandidates s genReply = ["Complete Guide to " ++ s.topic] := by
    unfold titleCandidates
    rw [if_pos h]
  refine ⟨by rw [hc], ?_⟩
  rw [hc]
  unfold selectTitle
  split
  · rename_i hmem
    rw [List.mem_singleton] at hmem
    rw [hmem]
  · rfl

/-- Witness for C7 at a concrete reply that parses to no candidates. -/
theorem fallback_title_when_no_candidates_witness :
    parseTitles "Sorry, I cannot produce a list." = []
    ∧ (title_agent { topic := "AI" } "Sorry, I cannot produce a list."
        "ignored").brainstormed_titles = some ["Complete Guide to " ++ "AI"]
    ∧ (title_agent { topic := "AI" } "Sorry, I cannot produce a list."
        "ignored").selected_title = some ("Complete Guide to " ++ "AI") := by
  refine ⟨by decide, ?_, ?_⟩
  · exact (fallback_title_when_no_candidates { topic := "AI" } _ "ignored" (by decide)).1
  · exact (fallback_title_when_no_candidates { topic := "AI" } _ "ignored" (by decide)).2


/-- Claim C8: `word_count` equals the whitespace-token count of
`blog_content` (the Content step's stripped output) in every run, and no
later step changes it; in a translated run the response's `content` is the
stripped translation reply while `word_count` still counts the
pre-translation `blog_content`. -/
theorem word_count_counts_pretranslation (req : BlogGenerationRequest) (o : Oracle) :
    (workflow_invoke o (initialState req)).1.blog_content = pyStrip o.contentReply
    ∧ (generate_blog req o).word_count =
        pyWordCount ((workflow_invoke o (initialState req)).1.blog_content)
    ∧ (generate_blog req o).content =
        (if (workflow_invoke o (initialState req)).2.contains "translation_agent" then
          pyStrip o.translationReply
        else (workflow_invoke o (initialState req)).1.blog_content) := by
  have hg1 : (generate_blog req o).word_count =
      (workflow_invoke o (initialState req)).1.word_count := rfl
  have hg2 : (generate_blog req o).content =
      (workflow_invoke o (initialState req)).1.final_content := rfl
  rw [hg1, hg2, workflow_invoke_eq o (initialState req)]
  by_cases h : should_translate (contentState o (initialState req)) = "translate"
  · rw [if_pos h, translatedState_eq o (initialState req) h]
    refine ⟨rfl, rfl, ?_⟩
    simp
  · rw [if_neg h]
    refine ⟨rfl, rfl, ?_⟩
    simp [contentState_final_eq_blog]

/-- Claim C10: after the Title step every element of `brainstormed_titles`
is a non-empty string, and `selected_title` — and the response's `title`
field — is a non-empty string. -/
theorem title_fields_nonempty (s : BlogState) (genReply selReply : String)
    (req : BlogGenerationRequest) (o : Oracle) :
    ((title_agent s genReply selReply).brainstormed_titles.getD []).all
        (fun t => t ≠ "") = true
    ∧ (title_agent s genReply selReply).selected_title.getD "" ≠ ""
    ∧ (generate_blog req o).title ≠ "" := by
  refine ⟨?_, ?_, ?_⟩
  · show (titleCandidates s genReply).all (fun t => t ≠ "") = true
    rw [List.all_eq_true]
    intro t ht
    simpa using titleCandidates_mem_ne_empty ht
  · show selectTitle (titleCandidates s genReply) selReply ≠ ""
    exact titleCandidates_mem_ne_empty
      (selectTitle_mem _ _ (titleCandidates_ne_nil s genReply))
  · have hresp : (generate_blog req o).title =
        (workflow_invoke o (initialState req)).1.selected_title := rfl
    rw [hresp, result_selected_title]
    exact titleCandidates_mem_ne_empty
      (selectTitle_mem _ _ (titleCandidates_ne_nil _ _))

/-- Counterexample to **C9** as stated: with `target_language = "Spanish"`
and a whitespace-only translation reply, the final state's
`translated_content` is present (`some ""`), yet `was_translated` is
`false`. -/
theorem was_translated_counterexample :
    ((workflow_invoke
        { titleGenReply := "1. Title One", titleSelReply := "Title One",
          contentReply := "Hello world", translationReply := "   " }
        (initialState
          { topic := "Remote Work",
            target_language := some "Spanish" })).1.translated_content).isSome = true
    ∧ (generate_blog
        { topic := "Remote Work", target_language := some "Spanish" }
        { titleGenReply := "1. Title One", titleSelReply := "Title One",
          contentReply := "Hello world",
          translationReply := "   " }).was_translated = false := by
  decide

/-- Claim C9, amended: `was_translated` is true iff `translated_content` is
present *and non-empty* in the final workflow state (Python truthiness of
the field, not mere presence). -/
theorem was_translated_iff_present_nonempty (req : BlogGenerationRequest) (o : Oracle) :
    (generate_blog req o).was_translated = true ↔
      ∃ t, (workflow_invoke o (initialState req)).1.translated_content = some t
        ∧ t ≠ "" := by
  have hw : (generate_blog req o).was_translated =
      pyTruthyOptStr (workflow_invoke o (initialState req)).1.translated_content := rfl
  rw [hw]
  cases h : (workflow_invoke o (initialState req)).1.translated_content with
  | none => simp [pyTruthyOptStr]
  | some t => simp [pyTruthyOptStr]

/-- Counterexample to **C4** as stated: with a whitespace-only
`target_language = "   "` (blank but not empty) the Translation step does
not return immediately — it issues one model call and returns a patch with
`translated_content` present. -/
theorem translation_agent_blank_counterexample :
    (translation_agent
        { blog_content := "Some content", target_language := some "   " }
        "Contenido").2 = 1
    ∧ (translation_agent
        { blog_content := "Some content", target_language := some "   " }
        "Contenido").1.translated_content = some (some "Contenido")
    ∧ ¬((translation_agent
          { blog_content := "Some content", target_language := some "   " }
          "Contenido").2 = 0
        ∧ (translation_agent
            { blog_content := "Some content", target_language := some "   " }
            "Contenido").1.translated_content = some none) := by
  decide

/-- Claim C4, amended: when `target_language` is absent (`None`) or the empty
string, the Translation step returns immediately — no model call — with
`translated_content = None` and `final_content` set to the state's
`blog_content`; a whitespace-only `target_language` instead proceeds to
invoke the model. -/
theorem translation_agent_guard (s : BlogState) (reply : String)
    (h : s.target_language = none ∨ s.target_language = some "") :
    translation_agent s reply =
      ({ translated_content := some none,
         final_content := some s.blog_content }, 0) := by
  unfold translation_agent
  rcases h with h | h <;> rw [h]
  dsimp only
  rw [if_pos rfl]

/-- Witness for the amended C4 at `target_language = none`. -/
theorem translation_agent_guard_witness :
    (({ blog_content := "Some content" } : BlogState).target_language = none
      ∨ ({ blog_content := "Some content" } : BlogState).target_language = some "")
    ∧ translation_agent { blog_content := "Some content" } "ignored" =
      ({ translated_content := some none, final_content := some "Some content" }, 0) := by
  refine ⟨Or.inl rfl, ?_⟩
  exact translation_agent_guard { blog_content := "Some content" } "ignored" (Or.inl rfl)


/-- The per-line parsing rule exactly as claim C6 states it: keep a line
whose stripped form is non-empty and begins with a digit, and strip only
the leading run of digits followed by one "." or ")" marker, leaving the
rest of the line's text (stripped of surrounding whitespace) intact. -/
def claimedLineTitle (line : String) : String :=
  let l := (pyStrip line).data
  let rest := l.dropWhile Char.isDigit
  let rest :=
    match rest with
    | '.' :: r => r
    | ')' :: r => r
    | r => r
  pyStrip ⟨rest⟩

/-- The whole parser as claim C6 states it. -/
def claimedParseTitles (raw : String) : List String :=
  (pySplitLines (pyStrip raw)).filterMap (fun line =>
    match (pyStrip line).data with
    | [] => none
    | c :: _ => if c.isDigit then some (claimedLineTitle line) else none)

/-- Counterexample to **C6** as stated: on the reply `"2) Hello. World"`
the code keeps only `"World"` — the `split(".", 1)` happens before the
`split(")", 1)` and acts on a "." in the middle of the title — whereas
stripping only the leading `"2)"` marker would keep `"Hello. World"`. -/
theorem title_parser_counterexample :
    parseTitles "2) Hello. World" = ["World"]
    ∧ claimedParseTitles "2) Hello. World" = ["Hello. World"]
    ∧ parseTitles "2) Hello. World" ≠ claimedParseTitles "2) Hello. World" := by
  decide

/-- The per-line rule of the amended claim C6: strip the line; keep it
when it is non-empty and starts with a digit; take the text after the
first "." anywhere in the line (if any), then after the first ")" in what
remains (if any), strip it, and keep it only if non-empty. -/
def amendedLineTitle? (line : String) : Option String :=
  let l := pyStrip line
  match l.data with
  | [] => none
  | c :: _ =>
    if c.isDigit then
      let t := pyStrip (pyAfterFirst ')' (pyAfterFirst '.' l))
      if t = "" then none else some t
    else none

/-- The whole parser of the amended claim C6. -/
def amendedParseTitles (raw : String) : List String :=
  (pySplitLines (pyStrip raw)).filterMap amendedLineTitle?

theorem amendedLineTitle?_eq (line : List Char) :
    amendedLineTitle? ⟨line⟩ = (lineTitle? line).map (fun l => (⟨l⟩ : String)) := by
  unfold amendedLineTitle? lineTitle?
  show (match stripChars line with
    | [] => none
    | c :: _ =>
      if c.isDigit then
        let t := pyStrip (pyAfterFirst ')' (pyAfterFirst '.' (⟨stripChars line⟩ : String)))
        if t = "" then none else some t
      else none) = _
  cases h : stripChars line with
  | nil => rfl
  | cons c cs =>
    dsimp only
    by_cases hd : c.isDigit
    · rw [if_pos hd, if_pos hd]
      have hps : pyStrip (pyAfterFirst ')' (pyAfterFirst '.' (⟨c :: cs⟩ : String))) =
          ⟨stripChars ((afterFirstChar? ')'
            ((afterFirstChar? '.' (c :: cs)).getD (c :: cs))).getD
            ((afterFirstChar? '.' (c :: cs)).getD (c :: cs)))⟩ := rfl
      rw [hps]
      cases h2 : stripChars ((afterFirstChar? ')'
          ((afterFirstChar? '.' (c :: cs)).getD (c :: cs))).getD
          ((afterFirstChar? '.' (c :: cs)).getD (c :: cs))) with
      | nil =>
        rw [if_pos ((mk_eq_empty_iff _).2 rfl)]
        rfl
      | cons x xs =>
        rw [if_neg (fun hx => List.noConfusion ((mk_eq_empty_iff _).1 hx))]
        rfl
    · rw [if_neg hd, if_neg hd]
      rfl

/-- Claim C6, amended: the parser keeps those stripped lines that are
non-empty and begin with a digit and whose residual text is non-empty;
from each kept line it takes the text after the first "." (if any), then
after the first ")" in what remains (if any), stripped — it does not
merely strip a leading numbering marker. -/
theorem title_parser_amended (raw : String) :
    parseTitles raw = amendedParseTitles raw := by
  unfold parseTitles amendedParseTitles pySplitLines
  rw [parseTitlesList_eq]
  rw [List.map_filterMap, List.filterMap_map]
  apply List.filterMap_congr
  intro line _
  show (lineTitle? line).map (fun l => (⟨l⟩ : String)) = amendedLineTitle? ⟨line⟩
  exact (amendedLineTitle?_eq line).symm

end BlogAgent
